import Mathlib

/-!
Verification of the Emerald Flower Shop backend (src/main.py) against its
natural-language specification.

The HTTP layer is modelled as pure functions from a store state and a request
to a response and a new store state.  Python dictionaries (request bodies,
Mongo documents) are modelled as association lists of string keys and a
`Value` type mirroring JSON-ish Python values; numbers are modelled as
rationals (the prices and totals involved are exact decimals).

The module `database` (symbols `db`, `create_document`, `get_documents`) is
imported by `main.py` but is not part of the given sources; its operations
are modelled from the specification of the Document Store Gateway and are
marked `Modelled from the spec:` in their doc comments.
-/

/-- A Python/JSON-ish value as stored in documents and request bodies. -/
inductive Value where
  | null : Value
  | str : String → Value
  | num : ℚ → Value
  | bool : Bool → Value
  | oid : Nat → Value
  | arr : List Value → Value
  | obj : List (String × Value) → Value

mutual

/-- Structural equality test on values (Python == on these shapes). -/
def vbeq : Value → Value → Bool
  | .null, .null => true
  | .str a, .str b => a == b
  | .num a, .num b => a == b
  | .bool a, .bool b => a == b
  | .oid a, .oid b => a == b
  | .arr a, .arr b => vbeqL a b
  | .obj a, .obj b => vbeqO a b
  | _, _ => false

/-- Pointwise `vbeq` on lists of values. -/
def vbeqL : List Value → List Value → Bool
  | [], [] => true
  | x :: xs, y :: ys => vbeq x y && vbeqL xs ys
  | _, _ => false

/-- Pointwise `vbeq` on association lists of values. -/
def vbeqO : List (String × Value) → List (String × Value) → Bool
  | [], [] => true
  | (k, v) :: xs, (l, w) :: ys => k == l && vbeq v w && vbeqO xs ys
  | _, _ => false

end

/-- A document / dictionary: an association list from string keys to values. -/
abbrev Doc := List (String × Value)

/-- First-match lookup in an association list (Python dict access). -/
def lookupA {α : Type} : List (String × α) → String → Option α
  | [], _ => none
  | (k, v) :: rest, key => if k = key then some v else lookupA rest key

/-- Setting a key in an association list (Python dict item assignment):
replaces the first binding of the key, or appends a new binding. -/
def setA {α : Type} : List (String × α) → String → α → List (String × α)
  | [], key, v => [(key, v)]
  | (k, w) :: rest, key, v =>
      if k = key then (key, v) :: rest else (k, w) :: setA rest key v

/-- The state of the document store: a fresh-identifier counter and the named
collections (created implicitly on first insertion), each a list of documents
in insertion order. -/
structure DB where
  counter : Nat
  colls : List (String × List Doc)

/-- A fresh deployment: no collection exists yet. -/
def freshDB : DB := ⟨0, []⟩

/-- Modelled from the spec: identifiers are normalized to a canonical text
form at the Gateway boundary (Python str() applied to the raw store value;
str(None) is the text None). Only the renderings of identifier-shaped values
are relied upon. -/
def pyStr : Value → String
  | .null => "None"
  | .str s => s
  | .num q => toString q
  | .bool b => if b then "True" else "False"
  | .oid n => "oid-" ++ toString n
  | .arr _ => "arr"
  | .obj _ => "obj"

/-- Modelled from the spec: `create_document` is imported from the missing
`database` module. Per the Gateway contract, insert(collection, record)
serializes the record, performs a single insertion into the named collection
(created implicitly by first insertion), lets the store assign a fresh
identifier that is never reused, and returns that identifier rendered as an
opaque string. -/
def create_document (db : DB) (collection : String) (record : Doc) : String × DB :=
  let docId := Value.oid db.counter
  let doc := record ++ [("_id", docId)]
  let coll := (lookupA db.colls collection).getD []
  (pyStr docId, ⟨db.counter + 1, setA db.colls collection (coll ++ [doc])⟩)

/-- Does a document satisfy a mapping of field-equality constraints? -/
def matchesFilter (d : Doc) (filt : List (String × Value)) : Bool :=
  filt.all (fun kv =>
    match lookupA d kv.1 with
    | some v => vbeq v kv.2
    | none => false)

/-- Modelled from the spec: `get_documents` is imported from the missing
`database` module. Per the Gateway contract, query(collection, filter, limit)
executes a filtered read; the filter is a mapping of field-equality
constraints and the empty mapping matches everything; limit caps the result
count and unset means unbounded; documents come back in insertion order. -/
def get_documents (db : DB) (collection : String) (filt : List (String × Value))
    (lim : Option Nat) : List Doc :=
  let docs := ((lookupA db.colls collection).getD []).filter
    (fun d => matchesFilter d filt)
  match lim with
  | none => docs
  | some n => docs.take n

/-- The fixed sample products seeded by `list_products` (src/main.py lines
100 to 133), in source order. -/
def sampleProducts : List Doc :=
  [ [ ("title", Value.str "Emerald Roses"),
      ("description", Value.str "A lush bouquet of deep green-tinted roses, perfect for elegant occasions."),
      ("price", Value.num 39),
      ("category", Value.str "bouquet"),
      ("in_stock", Value.bool true),
      ("image", Value.str "/flowers/emerald-roses.jpg") ],
    [ ("title", Value.str "Mint Tulip Mix"),
      ("description", Value.str "Soft tulips with a mint hue, bundled in recyclable wrap."),
      ("price", Value.num 29),
      ("category", Value.str "bouquet"),
      ("in_stock", Value.bool true),
      ("image", Value.str "/flowers/mint-tulips.jpg") ],
    [ ("title", Value.str "Jade Succulent Set"),
      ("description", Value.str "Three easy-care succulents in matte emerald pots."),
      ("price", Value.num 24),
      ("category", Value.str "plant"),
      ("in_stock", Value.bool true),
      ("image", Value.str "/flowers/jade-succulents.jpg") ],
    [ ("title", Value.str "Forest Fern Basket"),
      ("description", Value.str "A full-bodied fern in a handwoven basket."),
      ("price", Value.num 34),
      ("category", Value.str "plant"),
      ("in_stock", Value.bool true),
      ("image", Value.str "/flowers/forest-fern.jpg") ] ]

/-- The body of a successful GET /api/products response. -/
structure ListResponse where
  items : List Doc

/-- GET /api/products (src/main.py lines 94 to 144): query the product
collection with the empty filter and the caller-supplied limit; if the result
is empty, insert the four sample products in order and re-query (note: the
re-query at line 136 passes no limit); finally rewrite the identifier of each
returned document to its text form under the key _id. -/
def list_products (db : DB) (limit : Option Nat) : ListResponse × DB :=
  let products := get_documents db "product" [] limit
  let seeded :=
    if products.isEmpty then
      let db2 := sampleProducts.foldl (fun d s => (create_document d "product" s).2) db
      (get_documents db2 "product" [] none, db2)
    else (products, db)
  let cleaned := seeded.1.map (fun p =>
    setA p "_id" (Value.str (pyStr ((lookupA p "_id").getD Value.null))))
  (⟨cleaned⟩, seeded.2)

/-! ### Request validation (pydantic models in src/main.py) -/

/-- The validated shape of POST /api/products bodies (src/main.py lines 85
to 91). Note that `title : str` carries no non-emptiness constraint. -/
structure ProductIn where
  title : String
  description : Option String
  price : ℚ
  category : String
  in_stock : Bool
  image : Option String

/-- A required string field: present string values validate, a missing key or
a non-string value is an error. -/
def checkStr (raw : Doc) (field : String) : Except String String :=
  match lookupA raw field with
  | some (.str s) => .ok s
  | some _ => .error (field ++ ": input should be a valid string")
  | none => .error (field ++ ": field required")

/-- An optional string field defaulting to None: missing or null validate to
none. -/
def checkOptStr (raw : Doc) (field : String) : Except String (Option String) :=
  match lookupA raw field with
  | some (.str s) => .ok (some s)
  | some .null => .ok none
  | some _ => .error (field ++ ": input should be a valid string")
  | none => .ok none

/-- A required numeric field constrained by Field(..., ge=0). -/
def checkNumGe0 (raw : Doc) (field : String) : Except String ℚ :=
  match lookupA raw field with
  | some (.num q) =>
      if 0 ≤ q then .ok q
      else .error (field ++ ": input should be greater than or equal to 0")
  | some _ => .error (field ++ ": input should be a valid number")
  | none => .error (field ++ ": field required")

/-- A boolean field with default value true. -/
def checkBoolDefaultTrue (raw : Doc) (field : String) : Except String Bool :=
  match lookupA raw field with
  | some (.bool b) => .ok b
  | some _ => .error (field ++ ": input should be a valid boolean")
  | none => .ok true

/-- The error messages contributed by one field check. -/
def errOf {α : Type} : Except String α → List String
  | .ok _ => []
  | .error e => [e]

/-- The error messages contributed by one compound check. -/
def errsOf {α : Type} : Except (List String) α → List String
  | .ok _ => []
  | .error es => es

/-- Validation of a raw body against `ProductIn`, reporting every offending
field at once as pydantic does. -/
def validateProductIn (raw : Doc) : Except (List String) ProductIn :=
  match checkStr raw "title", checkOptStr raw "description", checkNumGe0 raw "price",
        checkStr raw "category", checkBoolDefaultTrue raw "in_stock", checkOptStr raw "image" with
  | .ok t, .ok d, .ok p, .ok c, .ok s, .ok i => .ok ⟨t, d, p, c, s, i⟩
  | t, d, p, c, s, i =>
      .error (errOf t ++ errOf d ++ errOf p ++ errOf c ++ errOf s ++ errOf i)

/-- Serialization of a validated product to its store representation. -/
def productInToDoc (p : ProductIn) : Doc :=
  [ ("title", Value.str p.title),
    ("description", match p.description with | some s => Value.str s | none => Value.null),
    ("price", Value.num p.price),
    ("category", Value.str p.category),
    ("in_stock", Value.bool p.in_stock),
    ("image", match p.image with | some s => Value.str s | none => Value.null) ]

/-- POST /api/products (src/main.py lines 147 to 153): FastAPI validates the
body against `ProductIn` and answers 422 on failure, before the handler runs;
the handler inserts the record and returns the new identifier. -/
def create_product_route (db : DB) (raw : Doc) : Except (List String) String × DB :=
  match validateProductIn raw with
  | .error es => (.error es, db)
  | .ok p =>
      let r := create_document db "product" (productInToDoc p)
      (.ok r.1, r.2)

/-- The validated shape of one order line (src/main.py lines 157 to 161). -/
structure OrderItem where
  product_id : String
  title : String
  quantity : Int
  price : ℚ

/-- The validated customer block (src/main.py lines 164 to 166). -/
structure CustomerInfo where
  name : String
  email : String

/-- The validated shape of POST /api/orders bodies (src/main.py lines 169
to 173). -/
structure OrderIn where
  items : List OrderItem
  total : ℚ
  customer : CustomerInfo
  note : Option String

/-- A required integer field constrained by Field(..., ge=1): the numeric
value must be integral and at least 1. -/
def checkIntGe1 (raw : Doc) (field : String) : Except String Int :=
  match lookupA raw field with
  | some (.num q) =>
      if q.den = 1 then
        if 1 ≤ q.num then .ok q.num
        else .error (field ++ ": input should be greater than or equal to 1")
      else .error (field ++ ": input should be a valid integer")
  | some _ => .error (field ++ ": input should be a valid integer")
  | none => .error (field ++ ": field required")

/-- Validation of one element of the items array against `OrderItem`. -/
def validateOrderItem (v : Value) : Except (List String) OrderItem :=
  match v with
  | .obj raw =>
      match checkStr raw "product_id", checkStr raw "title",
            checkIntGe1 raw "quantity", checkNumGe0 raw "price" with
      | .ok pid, .ok t, .ok q, .ok pr => .ok ⟨pid, t, q, pr⟩
      | pid, t, q, pr => .error (errOf pid ++ errOf t ++ errOf q ++ errOf pr)
  | _ => .error ["items: input should be a valid dictionary"]

/-- Validation of the items array elementwise, collecting all errors. -/
def validateItems : List Value → Except (List String) (List OrderItem)
  | [] => .ok []
  | v :: rest =>
      match validateOrderItem v, validateItems rest with
      | .ok i, .ok is => .ok (i :: is)
      | a, b => .error (errsOf a ++ errsOf b)

/-- The items field: a required array validated elementwise. -/
def checkItems (raw : Doc) : Except (List String) (List OrderItem) :=
  match lookupA raw "items" with
  | some (.arr vs) => validateItems vs
  | some _ => .error ["items: input should be a valid list"]
  | none => .error ["items: field required"]

/-- The customer field: a required nested object with name and email. -/
def checkCustomer (raw : Doc) : Except (List String) CustomerInfo :=
  match lookupA raw "customer" with
  | some (.obj c) =>
      match checkStr c "name", checkStr c "email" with
      | .ok n, .ok e => .ok ⟨n, e⟩
      | n, e => .error (errOf n ++ errOf e)
  | some _ => .error ["customer: input should be a valid dictionary"]
  | none => .error ["customer: field required"]

/-- Validation of a raw body against `OrderIn`. -/
def validateOrderIn (raw : Doc) : Except (List String) OrderIn :=
  match checkItems raw, checkNumGe0 raw "total", checkCustomer raw, checkOptStr raw "note" with
  | .ok is, .ok tot, .ok c, .ok n => .ok ⟨is, tot, c, n⟩
  | is, tot, c, n => .error (errsOf is ++ errOf tot ++ errsOf c ++ errOf n)

/-- Serialization of a validated order item (model_dump). -/
def orderItemToVal (i : OrderItem) : Value :=
  .obj [ ("product_id", Value.str i.product_id),
         ("title", Value.str i.title),
         ("quantity", Value.num (i.quantity : ℚ)),
         ("price", Value.num i.price) ]

/-- Serialization of a validated order (order.model_dump() at line 179). -/
def orderInToDoc (o : OrderIn) : Doc :=
  [ ("items", Value.arr (o.items.map orderItemToVal)),
    ("total", Value.num o.total),
    ("customer", Value.obj [("name", Value.str o.customer.name),
                            ("email", Value.str o.customer.email)]),
    ("note", match o.note with | some s => Value.str s | none => Value.null) ]

/-- The body of a successful POST /api/orders response. -/
structure OrderResponse where
  id : String
  status : String

/-- POST /api/orders (src/main.py lines 176 to 183): FastAPI validates the
body against `OrderIn` and answers 422 on failure; the handler dumps the
order, inserts it into the order collection and answers with the identifier
and the literal status received. -/
def create_order_route (db : DB) (raw : Doc) : Except (List String) OrderResponse × DB :=
  match validateOrderIn raw with
  | .error es => (.error es, db)
  | .ok o =>
      let r := create_document db "order" (orderInToDoc o)
      (.ok ⟨r.1, "received"⟩, r.2)

/-! ### The diagnostic endpoint GET /test -/

/-- The state of the module-level store handle seen by /test: either the
handle is None (store never connected), or it is a live handle with an
optional name attribute whose list_collection_names call either returns the
collection names or raises with some message. -/
inductive DBConn where
  | noDb : DBConn
  | conn : Option String → Except String (List String) → DBConn

/-- The relevant process environment: the raw values of DATABASE_URL and
DATABASE_NAME, none when unset. -/
structure Env where
  database_url : Option String
  database_name : Option String

/-- Python truthiness of an os.getenv result: unset and the empty string are
falsy. -/
def envTruthy : Option String → Bool
  | some s => !(s == "")
  | none => false

/-- Python string slicing s[:n]: the first n characters. -/
def pyTake (s : String) (n : Nat) : String := ⟨s.data.take n⟩

/-- The GET /test response object. The database_url and database_name slots
start as null and hold whatever was last assigned. -/
structure TestResponse where
  backend : String
  database : String
  database_url : Value
  database_name : Value
  connection_status : String
  collections : List String

/-- GET /test (src/main.py lines 30 to 64): build the default response,
branch on the store handle, fold any list_collection_names failure into the
database status text truncated to 50 characters, and finally overwrite
database_url and database_name from the environment checks. -/
def test_database (dbc : DBConn) (env : Env) : TestResponse :=
  let r0 : TestResponse :=
    ⟨"✅ Running", "❌ Not Available", Value.null, Value.null, "Not Connected", []⟩
  let r1 :=
    match dbc with
    | .noDb => { r0 with database := "⚠️  Available but not initialized" }
    | .conn name listRes =>
        let r := { r0 with
                   database := "✅ Available",
                   database_url := Value.str "✅ Configured",
                   database_name := Value.str (name.getD "✅ Connected"),
                   connection_status := "Connected" }
        match listRes with
        | .ok cols =>
            { r with collections := cols.take 10, database := "✅ Connected & Working" }
        | .error e =>
            { r with database := "⚠️  Connected but Error: " ++ pyTake e 50 }
  { r1 with
    database_url := Value.str (if envTruthy env.database_url then "✅ Set" else "❌ Not Set"),
    database_name := Value.str (if envTruthy env.database_name then "✅ Set" else "❌ Not Set") }

/-! ### Shared lemmas -/

theorem lookupA_setA_self {α : Type} (l : List (String × α)) (k : String) (v : α) :
    lookupA (setA l k v) k = some v := by
  induction l with
  | nil => simp [setA, lookupA]
  | cons p rest ih =>
      obtain ⟨k0, w⟩ := p
      by_cases h : k0 = k <;> simp [setA, lookupA, h, ih]

theorem get_documents_fresh (c : String) (f : List (String × Value)) (lim : Option Nat) :
    get_documents freshDB c f lim = [] := by
  cases lim <;> simp [get_documents, freshDB, lookupA]

/-- On a fresh store the initial query is empty whatever the limit, so the
whole request behaves as with no limit. -/
theorem list_products_fresh_eq (lim : Option Nat) :
    list_products freshDB lim = list_products freshDB none := by
  simp only [list_products, get_documents_fresh]

/-- When the initial query is non-empty the seeding branch is skipped: the
store is unchanged and the response is the cleaned query result. -/
theorem list_products_of_nonempty (db : DB) (lim : Option Nat)
    (h : get_documents db "product" [] lim ≠ []) :
    list_products db lim =
      (⟨(get_documents db "product" [] lim).map
          (fun p => setA p "_id" (Value.str (pyStr ((lookupA p "_id").getD Value.null))))⟩,
        db) := by
  have hB : (get_documents db "product" [] lim).isEmpty = false := by
    simp [List.isEmpty_iff, h]
  simp [list_products, hB]

theorem seeded_query_nonempty :
    get_documents (list_products freshDB none).2 "product" [] none ≠ [] := by
  have h4 : (get_documents (list_products freshDB none).2 "product" [] none).length = 4 := rfl
  intro hc
  rw [hc] at h4
  simp at h4

/-! ### Claims -/

/-- C1: for every fresh deployment, a GET /api/products listing on an empty
product collection inserts exactly the four fixed sample products with titles
Emerald Roses, Mint Tulip Mix, Jade Succulent Set, Forest Fern Basket and
prices 39.0, 29.0, 24.0, 34.0, in that order, and then returns a non-empty
item list. -/
theorem C1_fresh_listing_seeds_four_samples (lim : Option Nat) :
    ((lookupA (list_products freshDB lim).2.colls "product").getD []).map
        (fun d => (lookupA d "title", lookupA d "price")) =
      [ (some (Value.str "Emerald Roses"), some (Value.num 39)),
        (some (Value.str "Mint Tulip Mix"), some (Value.num 29)),
        (some (Value.str "Jade Succulent Set"), some (Value.num 24)),
        (some (Value.str "Forest Fern Basket"), some (Value.num 34)) ] ∧
    (list_products freshDB lim).1.items ≠ [] := by
  rw [list_products_fresh_eq]
  refine ⟨rfl, ?_⟩
  intro hc
  have h4 : (list_products freshDB none).1.items.length = 4 := rfl
  rw [hc] at h4
  simp at h4

/-- C2: seeding is idempotent across sequential calls: if the product query
returns a non-empty result, GET /api/products performs no insertion (the
store is returned unchanged) and the response is exactly the cleaned query
result, so a second listing after seeding returns the same document set with
no duplicate sample rows. -/
theorem C2_seeding_idempotent (db : DB) (lim : Option Nat)
    (h : get_documents db "product" [] lim ≠ []) :
    (list_products db lim).2 = db ∧
    (list_products db lim).1.items =
      (get_documents db "product" [] lim).map
        (fun p => setA p "_id" (Value.str (pyStr ((lookupA p "_id").getD Value.null)))) := by
  rw [list_products_of_nonempty db lim h]
  exact ⟨rfl, rfl⟩

/-- Witness for C2: after seeding a fresh store, the product query is
non-empty and a second listing leaves the store unchanged. -/
theorem C2_seeding_idempotent_witness :
    get_documents (list_products freshDB none).2 "product" [] none ≠ [] ∧
    (list_products (list_products freshDB none).2 none).2 = (list_products freshDB none).2 :=
  ⟨seeded_query_nonempty,
   (C2_seeding_idempotent (list_products freshDB none).2 none seeded_query_nonempty).1⟩

/-- C3 as stated is false: on a fresh store a request with limit 1 takes the
seeding path, whose re-query at src/main.py line 136 passes no limit, so the
response holds all four seeded documents instead of at most one. -/
theorem C3_counterexample :
    (list_products freshDB (some 1)).1.items.length = 4 ∧
    ¬ ((list_products freshDB (some 1)).1.items.length ≤ 1) := by
  have h4 : (list_products freshDB (some 1)).1.items.length = 4 := rfl
  refine ⟨h4, ?_⟩
  rw [h4]
  decide

/-- C3 amended: after seeding an empty product collection the handler
re-runs the query on the same collection with the same empty filter but
without the caller-supplied limit, so on a fresh deployment the response
holds all four seeded documents regardless of the requested limit; only on
the non-seeding path does the returned item list respect the limit. -/
theorem C3_amended_requery_drops_limit :
    (∀ lim : Option Nat, (list_products freshDB lim).1.items.length = 4) ∧
    (∀ (db : DB) (n : Nat), get_documents db "product" [] (some n) ≠ [] →
      (list_products db (some n)).1.items.length ≤ n) := by
  constructor
  · intro lim
    rw [list_products_fresh_eq]
    rfl
  · intro db n h
    rw [list_products_of_nonempty db (some n) h]
    simp only [List.length_map]
    simp only [get_documents]
    exact List.length_take_le n _

/-- Witness for the amended C3: after seeding, a query with limit 2 is
non-empty and a listing with limit 2 returns at most two items. -/
theorem C3_amended_requery_drops_limit_witness :
    get_documents (list_products freshDB none).2 "product" [] (some 2) ≠ [] ∧
    (list_products (list_products freshDB none).2 (some 2)).1.items.length ≤ 2 := by
  have h : get_documents (list_products freshDB none).2 "product" [] (some 2) ≠ [] := by
    have h2 : (get_documents (list_products freshDB none).2 "product" [] (some 2)).length = 2 := rfl
    intro hc
    rw [hc] at h2
    simp at h2
  exact ⟨h, C3_amended_requery_drops_limit.2 (list_products freshDB none).2 2 h⟩

/-- A successfully validated product body passed both the title check and
the price check. -/
theorem validateProductIn_ok (raw : Doc) (p : ProductIn)
    (h : validateProductIn raw = Except.ok p) :
    checkStr raw "title" = Except.ok p.title ∧
    checkNumGe0 raw "price" = Except.ok p.price := by
  unfold validateProductIn at h
  cases h1 : checkStr raw "title" <;> cases h2 : checkOptStr raw "description" <;>
    cases h3 : checkNumGe0 raw "price" <;> cases h4 : checkStr raw "category" <;>
      cases h5 : checkBoolDefaultTrue raw "in_stock" <;> cases h6 : checkOptStr raw "image" <;>
        rw [h1, h2, h3, h4, h5, h6] at h <;>
          first
          | (cases h; exact ⟨rfl, rfl⟩)
          | simp_all

/-- C4: a POST /api/products body whose price is negative or whose title
field is missing fails validation with a client error before any store
interaction: the route answers an error and the store state, hence every
collection count, is unchanged, so the Gateway insert is never invoked. -/
theorem C4_invalid_product_rejected_before_store (db : DB) (raw : Doc)
    (h : lookupA raw "title" = none ∨
         ∃ q : ℚ, lookupA raw "price" = some (Value.num q) ∧ q < 0) :
    (∃ es, (create_product_route db raw).1 = Except.error es) ∧
    (create_product_route db raw).2 = db := by
  cases hv : validateProductIn raw with
  | error es =>
      unfold create_product_route
      rw [hv]
      exact ⟨⟨es, rfl⟩, rfl⟩
  | ok p =>
      exfalso
      obtain ⟨ht, hp⟩ := validateProductIn_ok raw p hv
      rcases h with h | ⟨q, hq, hneg⟩
      · unfold checkStr at ht
        rw [h] at ht
        simp at ht
      · unfold checkNumGe0 at hp
        rw [hq] at hp
        have hp2 : (if 0 ≤ q then (Except.ok q : Except String ℚ)
            else Except.error ("price" ++ ": input should be greater than or equal to 0"))
            = Except.ok p.price := hp
        rw [if_neg (not_le.mpr hneg)] at hp2
        simp at hp2

/-- Witness for C4: a body without a title is rejected and leaves a fresh
store untouched. -/
theorem C4_invalid_product_rejected_before_store_witness :
    lookupA [("price", Value.num 5), ("category", Value.str "x")] "title" = none ∧
    (∃ es, (create_product_route freshDB
        [("price", Value.num 5), ("category", Value.str "x")]).1 = Except.error es) ∧
    (create_product_route freshDB
        [("price", Value.num 5), ("category", Value.str "x")]).2 = freshDB :=
  ⟨rfl, C4_invalid_product_rejected_before_store freshDB
      [("price", Value.num 5), ("category", Value.str "x")] (Or.inl rfl)⟩

/-- C5 as stated is false: a body whose title is the empty string passes
validation (title is typed str with no non-emptiness constraint at
src/main.py line 86), the insert is invoked and the Gateway persists a
product whose title is the empty string. -/
theorem C5_counterexample :
    (create_product_route freshDB
        [("title", Value.str ""), ("price", Value.num 5), ("category", Value.str "flower")]).1
      = Except.ok "oid-0" ∧
    ((lookupA (create_product_route freshDB
        [("title", Value.str ""), ("price", Value.num 5),
         ("category", Value.str "flower")]).2.colls "product").getD []).map
        (fun d => lookupA d "title")
      = [some (Value.str "")] :=
  ⟨rfl, rfl⟩

/-- C5 amended: every product accepted for insertion has a title that is
present and of string type, both in the request body and in the record
handed to the Gateway; the title may however be the empty string, since the
declared shape imposes no non-emptiness constraint. -/
theorem C5_amended_title_present_as_string (raw : Doc) (p : ProductIn)
    (h : validateProductIn raw = Except.ok p) :
    lookupA raw "title" = some (Value.str p.title) ∧
    lookupA (productInToDoc p) "title" = some (Value.str p.title) := by
  obtain ⟨ht, -⟩ := validateProductIn_ok raw p h
  refine ⟨?_, rfl⟩
  unfold checkStr at ht
  cases hl : lookupA raw "title" with
  | none => rw [hl] at ht; simp at ht
  | some v =>
      rw [hl] at ht
      cases v <;> simp_all

/-- Witness for the amended C5: a concrete accepted body carries its title
as a string in both places. -/
theorem C5_amended_title_present_as_string_witness :
    validateProductIn [("title", Value.str "Rose"), ("price", Value.num 1),
        ("category", Value.str "c")]
      = Except.ok ⟨"Rose", none, 1, "c", true, none⟩ ∧
    lookupA [("title", Value.str "Rose"), ("price", Value.num 1),
        ("category", Value.str "c")] "title"
      = some (Value.str (ProductIn.mk "Rose" none 1 "c" true none).title) :=
  ⟨rfl,
   (C5_amended_title_present_as_string
      [("title", Value.str "Rose"), ("price", Value.num 1), ("category", Value.str "c")]
      ⟨"Rose", none, 1, "c", true, none⟩ rfl).1⟩

/-- A well-formed order item round-trips through elementwise validation. -/
theorem validateOrderItem_roundtrip (i : OrderItem)
    (h1 : 1 ≤ i.quantity) (h2 : 0 ≤ i.price) :
    validateOrderItem (orderItemToVal i) = Except.ok i := by
  unfold validateOrderItem orderItemToVal
  simp [checkStr, checkIntGe1, checkNumGe0, lookupA, Rat.den_intCast, Rat.num_intCast, h1, h2]

/-- A list of well-formed order items round-trips through validation. -/
theorem validateItems_roundtrip (l : List OrderItem)
    (h : ∀ i ∈ l, 1 ≤ i.quantity ∧ 0 ≤ i.price) :
    validateItems (l.map orderItemToVal) = Except.ok l := by
  induction l with
  | nil => rfl
  | cons i rest ih =>
      have hi := h i (List.mem_cons_self i rest)
      have hr := ih (fun j hj => h j (List.mem_cons_of_mem i hj))
      simp [validateItems, validateOrderItem_roundtrip i hi.1 hi.2, hr]

/-- A well-formed order round-trips through body validation. -/
theorem validateOrderIn_roundtrip (o : OrderIn)
    (hitems : ∀ i ∈ o.items, 1 ≤ i.quantity ∧ 0 ≤ i.price) (htot : 0 ≤ o.total) :
    validateOrderIn (orderInToDoc o) = Except.ok o := by
  have h1 : checkItems (orderInToDoc o) = Except.ok o.items := by
    unfold checkItems orderInToDoc
    simp [lookupA, validateItems_roundtrip o.items hitems]
  have h2 : checkNumGe0 (orderInToDoc o) "total" = Except.ok o.total := by
    unfold checkNumGe0 orderInToDoc
    simp [lookupA, htot]
  have h3 : checkCustomer (orderInToDoc o) = Except.ok o.customer := by
    unfold checkCustomer orderInToDoc
    simp [lookupA, checkStr]
  have h4 : checkOptStr (orderInToDoc o) "note" = Except.ok o.note := by
    unfold checkOptStr orderInToDoc
    cases o.note <;> simp [lookupA]
  unfold validateOrderIn
  rw [h1, h2, h3, h4]

/-- C6: every order body whose items all have quantity at least 1 and price
at least 0 and whose total is at least 0 is accepted by POST /api/orders,
which answers the literal status received and a non-empty identifier; the
stored order document carries the caller-supplied total unchanged, never
recomputed or checked against the sum of the item prices. -/
theorem C6_valid_order_accepted (db : DB) (o : OrderIn)
    (hitems : ∀ i ∈ o.items, 1 ≤ i.quantity ∧ 0 ≤ i.price) (htot : 0 ≤ o.total) :
    (create_order_route db (orderInToDoc o)).1 =
        Except.ok ⟨pyStr (Value.oid db.counter), "received"⟩ ∧
    pyStr (Value.oid db.counter) ≠ "" ∧
    (lookupA (create_order_route db (orderInToDoc o)).2.colls "order").getD [] =
      ((lookupA db.colls "order").getD []) ++
        [orderInToDoc o ++ [("_id", Value.oid db.counter)]] ∧
    lookupA (orderInToDoc o ++ [("_id", Value.oid db.counter)]) "total"
      = some (Value.num o.total) := by
  have hv := validateOrderIn_roundtrip o hitems htot
  unfold create_order_route
  rw [hv]
  refine ⟨rfl, ?_, ?_, ?_⟩
  · intro hc
    have hlen := congrArg String.length hc
    unfold pyStr at hlen
    rw [String.length_append] at hlen
    have h1 : ("oid-" : String).length = 4 := rfl
    have h2 : ("" : String).length = 0 := rfl
    rw [h1, h2] at hlen
    omega
  · simp [create_document, lookupA_setA_self]
  · simp [orderInToDoc, lookupA]

/-- Witness for C6: the specification scenario with a deliberately
mismatching total of 999.0 is accepted and stored as given. -/
theorem C6_valid_order_accepted_witness :
    (∀ i ∈ [OrderItem.mk "p1" "Emerald Roses" 2 39], 1 ≤ i.quantity ∧ 0 ≤ i.price) ∧
    (0 : ℚ) ≤ 999 ∧
    (create_order_route freshDB (orderInToDoc
        ⟨[OrderItem.mk "p1" "Emerald Roses" 2 39], 999,
         ⟨"A", "a@example.com"⟩, none⟩)).1
      = Except.ok ⟨"oid-0", "received"⟩ := by
  have hitems : ∀ i ∈ [OrderItem.mk "p1" "Emerald Roses" 2 39],
      1 ≤ i.quantity ∧ 0 ≤ i.price := by
    intro i hi
    simp only [List.mem_singleton] at hi
    subst hi
    exact ⟨by decide, by decide⟩
  have htot : (0 : ℚ) ≤ 999 := by decide
  exact ⟨hitems, htot,
    (C6_valid_order_accepted freshDB
      ⟨[OrderItem.mk "p1" "Emerald Roses" 2 39], 999, ⟨"A", "a@example.com"⟩, none⟩
      hitems htot).1⟩

/-- No error text can make the connected-but-erroring status collide with the
not-initialized status: they differ at character index 4. -/
theorem err_status_ne_uninitialized (x : String) :
    "⚠️  Connected but Error: " ++ x ≠ "⚠️  Available but not initialized" := by
  intro h
  have hd := congrArg String.data h
  rw [String.data_append] at hd
  have h4 := congrArg (fun l => l[4]?) hd
  simp only at h4
  rw [List.getElem?_append_left
    (by decide : 4 < ("⚠️  Connected but Error: ").data.length)] at h4
  exact absurd h4 (by decide)

/-- No error text can make the connected-but-erroring status collide with the
working status: the former is always strictly longer. -/
theorem err_status_ne_working (x : String) :
    "⚠️  Connected but Error: " ++ x ≠ "✅ Connected & Working" := by
  intro h
  have hl := congrArg String.length h
  rw [String.length_append] at hl
  have h1 : ("⚠️  Connected but Error: " : String).length = 25 := by decide
  have h2 : ("✅ Connected & Working" : String).length = 21 := by decide
  rw [h1, h2] at hl
  omega

/-- C7: GET /test never fails: every store state yields a full response with
the running-backend marker, and the three database states, store handle
missing, store connected but the listing call erroring, and store connected
and working, are reported with three pairwise distinct database status
texts. -/
theorem C7_test_reports_three_distinct_states (dbc : DBConn) (env : Env)
    (nm : Option String) (e : String) (cols : List String) :
    (test_database dbc env).backend = "✅ Running" ∧
    (test_database DBConn.noDb env).database = "⚠️  Available but not initialized" ∧
    (test_database (DBConn.conn nm (Except.error e)) env).database
      = "⚠️  Connected but Error: " ++ pyTake e 50 ∧
    (test_database (DBConn.conn nm (Except.ok cols)) env).database
      = "✅ Connected & Working" ∧
    (test_database DBConn.noDb env).database
      ≠ (test_database (DBConn.conn nm (Except.error e)) env).database ∧
    (test_database DBConn.noDb env).database
      ≠ (test_database (DBConn.conn nm (Except.ok cols)) env).database ∧
    (test_database (DBConn.conn nm (Except.error e)) env).database
      ≠ (test_database (DBConn.conn nm (Except.ok cols)) env).database := by
  refine ⟨?_, rfl, rfl, rfl, ?_, ?_, ?_⟩
  · cases dbc with
    | noDb => rfl
    | conn nm2 res => cases res <;> rfl
  · exact fun h => err_status_ne_uninitialized (pyTake e 50) h.symm
  · intro h
    have h2 : "⚠️  Available but not initialized" = "✅ Connected & Working" := h
    exact absurd h2 (by decide)
  · exact err_status_ne_working (pyTake e 50)

/-- C8: when the collection listing fails inside GET /test, the database
status text embeds the underlying error message truncated to its first 50
characters, so the diagnostic output never contains an unbounded error
payload. -/
theorem C8_error_message_truncated (nm : Option String) (e : String) (env : Env) :
    (test_database (DBConn.conn nm (Except.error e)) env).database
      = "⚠️  Connected but Error: " ++ pyTake e 50 ∧
    (pyTake e 50).length ≤ 50 :=
  ⟨rfl, List.length_take_le 50 e.data⟩

/-- C10: the database_url and database_name fields of every GET /test
response are unconditionally overwritten after all connection checks with
the environment-variable indicators, so no connection-derived value ever
appears in them. -/
theorem C10_env_flags_unconditional (dbc : DBConn) (env : Env) :
    (test_database dbc env).database_url
        = Value.str (if envTruthy env.database_url then "✅ Set" else "❌ Not Set") ∧
    (test_database dbc env).database_name
        = Value.str (if envTruthy env.database_name then "✅ Set" else "❌ Not Set") :=
  ⟨rfl, rfl⟩

/-- C9: every document in a product listing response is a stored document
whose identifier has been rewritten, under the fixed key _id, to the text
rendering of whatever raw identifier value the store held there, so the
response always carries a string identifier in place of the raw one. -/
theorem C9_ids_normalized_to_text (db : DB) (lim : Option Nat) (p : Doc)
    (hp : p ∈ (list_products db lim).1.items) :
    ∃ orig s, p = setA orig "_id" (Value.str s) ∧
      s = pyStr ((lookupA orig "_id").getD Value.null) ∧
      lookupA p "_id" = some (Value.str s) := by
  have hshape : ∃ l : List Doc, (list_products db lim).1.items =
      l.map (fun q => setA q "_id" (Value.str (pyStr ((lookupA q "_id").getD Value.null)))) := by
    by_cases h : (get_documents db "product" [] lim).isEmpty
    · refine ⟨get_documents
        (sampleProducts.foldl (fun d s => (create_document d "product" s).2) db)
        "product" [] none, ?_⟩
      simp [list_products, h]
    · exact ⟨get_documents db "product" [] lim, by simp [list_products, h]⟩
  obtain ⟨l, hl⟩ := hshape
  rw [hl] at hp
  rcases List.mem_map.mp hp with ⟨orig, -, rfl⟩
  exact ⟨orig, _, rfl, rfl, lookupA_setA_self orig "_id" _⟩

/-- Witness for C9: the first item of a fresh listing carries its identifier
as the string rendering of the store-assigned identifier. -/
theorem C9_ids_normalized_to_text_witness :
    [ ("title", Value.str "Emerald Roses"),
      ("description", Value.str "A lush bouquet of deep green-tinted roses, perfect for elegant occasions."),
      ("price", Value.num 39),
      ("category", Value.str "bouquet"),
      ("in_stock", Value.bool true),
      ("image", Value.str "/flowers/emerald-roses.jpg"),
      ("_id", Value.str "oid-0") ] ∈ (list_products freshDB none).1.items ∧
    ∃ orig s,
      [ ("title", Value.str "Emerald Roses"),
        ("description", Value.str "A lush bouquet of deep green-tinted roses, perfect for elegant occasions."),
        ("price", Value.num 39),
        ("category", Value.str "bouquet"),
        ("in_stock", Value.bool true),
        ("image", Value.str "/flowers/emerald-roses.jpg"),
        ("_id", Value.str "oid-0") ] = setA orig "_id" (Value.str s) ∧
      s = pyStr ((lookupA orig "_id").getD Value.null) ∧
      lookupA [ ("title", Value.str "Emerald Roses"),
        ("description", Value.str "A lush bouquet of deep green-tinted roses, perfect for elegant occasions."),
        ("price", Value.num 39),
        ("category", Value.str "bouquet"),
        ("in_stock", Value.bool true),
        ("image", Value.str "/flowers/emerald-roses.jpg"),
        ("_id", Value.str "oid-0") ] "_id" = some (Value.str s) := by
  have hm : [ ("title", Value.str "Emerald Roses"),
      ("description", Value.str "A lush bouquet of deep green-tinted roses, perfect for elegant occasions."),
      ("price", Value.num 39),
      ("category", Value.str "bouquet"),
      ("in_stock", Value.bool true),
      ("image", Value.str "/flowers/emerald-roses.jpg"),
      ("_id", Value.str "oid-0") ] ∈ (list_products freshDB none).1.items :=
    List.mem_cons_self _ _
  exact ⟨hm, C9_ids_normalized_to_text freshDB none _ hm⟩
